import Mathlib

/-!
Shallow embedding of the screening pipeline of `select_stock.py` from the
StockTradebyZ repository: `load_data`, `load_config`,
`instantiate_selector` and `run_select_stock`, together with theorems
checking the specification's claims about them.

Conventions of the embedding:
* JSON values decoded by `json.load` become the inductive type `JVal`.
* A Python function can return normally, terminate the process via
  `sys.exit(1)`, or let an exception propagate; the type `Outcome`
  distinguishes the three.
* The external collaborators — the file system, `pd.to_datetime`, and the
  dynamically imported `Selector` module — are explicit parameters.
* Logging is side-effect only and is not modelled.
-/

/-- JSON-like values, as produced by `json.load` in `load_config` and
consumed by the engine loop. Numbers are integers here; no claim involves
fractional values. -/
inductive JVal where
  | jnull
  | jbool (b : Bool)
  | jnum (n : Int)
  | jstr (s : String)
  | jarr (xs : List JVal)
  | jobj (fields : List (String × JVal))

mutual

/-- Structural boolean equality on `JVal` (Python `==` on decoded JSON
values, up to the cross-type corners `True == 1` etc., which no claim
involves). -/
def jvalEq : JVal → JVal → Bool
  | .jnull, .jnull => true
  | .jbool a, .jbool b => a == b
  | .jnum a, .jnum b => a == b
  | .jstr a, .jstr b => a == b
  | .jarr xs, .jarr ys => jvalListEq xs ys
  | .jobj fs, .jobj gs => jvalFieldsEq fs gs
  | _, _ => false

/-- Pointwise equality of JSON arrays. -/
def jvalListEq : List JVal → List JVal → Bool
  | [], [] => true
  | x :: xs, y :: ys => jvalEq x y && jvalListEq xs ys
  | _, _ => false

/-- Pointwise equality of JSON object field lists. -/
def jvalFieldsEq : List (String × JVal) → List (String × JVal) → Bool
  | [], [] => true
  | (k, v) :: xs, (l, w) :: ys => k == l && jvalEq v w && jvalFieldsEq xs ys
  | _, _ => false

end

mutual

/-- Soundness and completeness of `jvalEq`. -/
theorem jvalEq_iff : ∀ a b : JVal, jvalEq a b = true ↔ a = b
  | .jnull, .jnull => by simp [jvalEq]
  | .jbool _, .jbool _ => by simp [jvalEq]
  | .jnum _, .jnum _ => by simp [jvalEq]
  | .jstr _, .jstr _ => by simp [jvalEq]
  | .jarr xs, .jarr ys => by
      simp only [jvalEq]
      rw [jvalListEq_iff xs ys]
      constructor
      · intro h; rw [h]
      · intro h; cases h; rfl
  | .jobj fs, .jobj gs => by
      simp only [jvalEq]
      rw [jvalFieldsEq_iff fs gs]
      constructor
      · intro h; rw [h]
      · intro h; cases h; rfl
  | .jnull, .jbool _ => by simp [jvalEq]
  | .jnull, .jnum _ => by simp [jvalEq]
  | .jnull, .jstr _ => by simp [jvalEq]
  | .jnull, .jarr _ => by simp [jvalEq]
  | .jnull, .jobj _ => by simp [jvalEq]
  | .jbool _, .jnull => by simp [jvalEq]
  | .jbool _, .jnum _ => by simp [jvalEq]
  | .jbool _, .jstr _ => by simp [jvalEq]
  | .jbool _, .jarr _ => by simp [jvalEq]
  | .jbool _, .jobj _ => by simp [jvalEq]
  | .jnum _, .jnull => by simp [jvalEq]
  | .jnum _, .jbool _ => by simp [jvalEq]
  | .jnum _, .jstr _ => by simp [jvalEq]
  | .jnum _, .jarr _ => by simp [jvalEq]
  | .jnum _, .jobj _ => by simp [jvalEq]
  | .jstr _, .jnull => by simp [jvalEq]
  | .jstr _, .jbool _ => by simp [jvalEq]
  | .jstr _, .jnum _ => by simp [jvalEq]
  | .jstr _, .jarr _ => by simp [jvalEq]
  | .jstr _, .jobj _ => by simp [jvalEq]
  | .jarr _, .jnull => by simp [jvalEq]
  | .jarr _, .jbool _ => by simp [jvalEq]
  | .jarr _, .jnum _ => by simp [jvalEq]
  | .jarr _, .jstr _ => by simp [jvalEq]
  | .jarr _, .jobj _ => by simp [jvalEq]
  | .jobj _, .jnull => by simp [jvalEq]
  | .jobj _, .jbool _ => by simp [jvalEq]
  | .jobj _, .jnum _ => by simp [jvalEq]
  | .jobj _, .jstr _ => by simp [jvalEq]
  | .jobj _, .jarr _ => by simp [jvalEq]

/-- Soundness and completeness of `jvalListEq`. -/
theorem jvalListEq_iff : ∀ xs ys : List JVal, jvalListEq xs ys = true ↔ xs = ys
  | [], [] => by simp [jvalListEq]
  | x :: xs, y :: ys => by
      simp only [jvalListEq, Bool.and_eq_true]
      rw [jvalEq_iff x y, jvalListEq_iff xs ys]
      simp
  | [], _ :: _ => by simp [jvalListEq]
  | _ :: _, [] => by simp [jvalListEq]

/-- Soundness and completeness of `jvalFieldsEq`. -/
theorem jvalFieldsEq_iff :
    ∀ xs ys : List (String × JVal), jvalFieldsEq xs ys = true ↔ xs = ys
  | [], [] => by simp [jvalFieldsEq]
  | (k, v) :: xs, (l, w) :: ys => by
      simp only [jvalFieldsEq, Bool.and_eq_true]
      rw [jvalEq_iff v w, jvalFieldsEq_iff xs ys]
      simp [Prod.ext_iff, and_assoc]
  | [], _ :: _ => by simp [jvalFieldsEq]
  | _ :: _, [] => by simp [jvalFieldsEq]

end

instance : DecidableEq JVal := fun a b =>
  decidable_of_iff (jvalEq a b = true) (jvalEq_iff a b)

/-- Python truthiness of a decoded JSON value (`if not cfgs`,
`if not cls_name`). -/
def JVal.truthy : JVal → Bool
  | .jnull => false
  | .jbool b => b
  | .jnum n => n != 0
  | .jstr s => s != ""
  | .jarr xs => !xs.isEmpty
  | .jobj fs => !fs.isEmpty

/-- Outcome of running a Python function: a normal return value, process
termination via `sys.exit(1)`, or an uncaught exception (tagged with the
exception's name) propagating to the caller. -/
inductive Outcome (α : Type) where
  | ret (a : α)
  | exits
  | raise (msg : String)
deriving DecidableEq

/-- Python `cfg.get(key)` on a JSON object decoded to an association list
(`json.load` keeps at most one binding per key; lookup takes the first). -/
def lookupField (fields : List (String × JVal)) (key : String) : Option JVal :=
  (fields.find? (fun p => p.1 == key)).map Prod.snd

/-- Python dict assignment `d[k] = v`: when the key is present its value is
replaced in place, otherwise the binding is appended. -/
def dictSet {κ α : Type} [DecidableEq κ] (d : List (κ × α)) (k : κ) (v : α) :
    List (κ × α) :=
  if d.any (fun p => decide (p.1 = k)) then
    d.map (fun p => if p.1 = k then (p.1, v) else p)
  else d ++ [(k, v)]

/-- Python dict lookup `d[k]` (`none` models a `KeyError`). -/
def dictGet {κ α : Type} [DecidableEq κ] (d : List (κ × α)) (k : κ) : Option α :=
  (d.find? (fun p => decide (p.1 = k))).map Prod.snd

/-- A per-instrument series: the parsed `date` column of one CSV file, dates
as integers. Strategies consume the remaining columns opaquely and the core
itself only reads the dates, so the embedding keeps just the date column.
A header-only CSV loads as the empty series. -/
abbrev Series := List Int

/-- A pandas timestamp value as it flows through the pipeline: `some d` is
a real timestamp, `none` is `NaT` (the value `df["date"].max()` takes on an
empty frame). -/
abbrev TS := Option Int

/-- The file-system context of a run: whether the data directory exists, the
date column of each `*.csv` file in it keyed by file stem, and the decoded
content of the configuration file (`none` when that path does not exist). -/
structure Env where
  dataDirExists : Bool
  csvFiles : List (String × Series)
  configRaw : Option JVal

/-- The fields of `args` that `run_select_stock` reads: `args.date` (`none`
models the argparse default `None`) and `args.tickers`. The paths
`args.data_dir` and `args.config` are represented by `Env`; `args.etf_info`
only affects logging. -/
structure Args where
  date : Option String
  tickers : String

/-- A constructed strategy instance: its `select` method takes the trade
date and the code-to-series mapping and either returns the picked codes or
raises. -/
structure Selector where
  select : TS → List (String × Series) → Except String (List String)

/-- The dynamically imported `Selector` module: maps a class name to its
constructor, `none` modelling `ModuleNotFoundError` or `AttributeError`; a
constructor maps the `params` object to an instance or raises. -/
def SelectorModule := String → Option (JVal → Except String Selector)

/-- Python `str.strip()` whitespace set (the ASCII part). -/
def pyIsSpace (c : Char) : Bool :=
  c == ' ' || c == '\t' || c == '\n' || c == '\r' ||
    c == Char.ofNat 11 || c == Char.ofNat 12

/-- Python `str.strip()`: drop leading and trailing whitespace. -/
def pystrip (s : String) : String :=
  String.mk (((s.toList.dropWhile pyIsSpace).reverse.dropWhile pyIsSpace).reverse)

/-- Python `str.lower()`, character by character. -/
def pyLower (s : String) : String :=
  String.mk (s.toList.map Char.toLower)

/-- Helper for `str.split(",")`: walk the characters, cutting at commas;
`acc` holds the current segment reversed. -/
def splitCommaAux : List Char → List Char → List String
  | [], acc => [String.mk acc.reverse]
  | c :: cs, acc =>
    if c = ',' then String.mk acc.reverse :: splitCommaAux cs []
    else splitCommaAux cs (c :: acc)

/-- Python `str.split(",")`: segments between commas, in order; the empty
string yields `[""]`. -/
def pySplitComma (s : String) : List String :=
  splitCommaAux s.toList []

/-- Universe computation (`select_stock.py` lines 99 to 103): a tickers
string equal to `"all"` case-insensitively means every `*.csv` stem in the
data directory; otherwise the string is split on commas, kept segments are
those whose stripped form is non-empty, and each kept segment is stripped. -/
def computeCodes (env : Env) (tickers : String) : List String :=
  if pyLower tickers == "all" then env.csvFiles.map Prod.fst
  else
    ((pySplitComma tickers).filter (fun c => pystrip c != "")).map pystrip

/-- File lookup: the date column of `data_dir / f"{code}.csv"`, `none` when
the file does not exist. -/
def fileFor (env : Env) (code : String) : Option Series :=
  (env.csvFiles.find? (fun p => p.1 == code)).map Prod.snd

/-- Insertion into a sorted list, ascending. -/
def insertSorted (x : Int) : List Int → List Int
  | [] => [x]
  | y :: ys => if x ≤ y then x :: y :: ys else y :: insertSorted x ys

/-- Loading one CSV: `pd.read_csv(fp, parse_dates=["date"]).sort_values`
on the date column, here an insertion sort ascending (dates within a file
are unique, so which correct sort is used is immaterial). -/
def sortSeries (s : Series) : Series :=
  s.foldr insertSorted []

/-- MarketDataStore load (`load_data`, lines 28 to 37): for each requested
code in order, a code whose file is absent is skipped with a warning,
otherwise its parsed, sorted series is stored in the `frames` dict. -/
def load_data (env : Env) (codes : List String) : List (String × Series) :=
  codes.foldl
    (fun frames code =>
      match fileFor env code with
      | none => frames
      | some df => dictSet frames code (sortSeries df))
    []

/-- ConfigLoader shape normalization (lines 47 to 53): an array is taken as
is, an object holding a `"selectors"` key contributes that key's value, and
any other document is wrapped as a one-element list. -/
def normalizeConfig (cfg_raw : JVal) : JVal :=
  match cfg_raw with
  | .jarr l => .jarr l
  | .jobj fields =>
    match lookupField fields "selectors" with
    | some v => v
    | none => .jarr [.jobj fields]
  | other => .jarr [other]

/-- ConfigLoader (`load_config`, lines 40 to 59): a missing configuration
file and a falsy normalized value both terminate the process via
`sys.exit(1)`. -/
def load_config (configRaw : Option JVal) : Outcome JVal :=
  match configRaw with
  | none => .exits
  | some raw =>
    let cfgs := normalizeConfig raw
    if cfgs.truthy then .ret cfgs else .exits

/-- StrategyRegistry (`instantiate_selector`, lines 62 to 75). Every failure
is an `Except.error` carrying the exception's name: a falsy or missing
`class` field raises `ValueError`; a failed import or attribute lookup
raises `ImportError`; `getattr` with a non-string name raises `TypeError`;
the constructor call `cls(**params)` may raise. The last two escape the
function in the source instead of being re-wrapped, but its only caller
catches every exception alike, so the error-value modelling is
observation-equivalent there. The returned alias is `cfg.get("alias",
cls_name)`. -/
def instantiate_selector (mod : SelectorModule) (cfg : List (String × JVal)) :
    Except String (JVal × Selector) :=
  match lookupField cfg "class" with
  | none => .error "ValueError"
  | some clsVal =>
    if !clsVal.truthy then .error "ValueError"
    else
      match clsVal with
      | .jstr cls_name =>
        match mod cls_name with
        | none => .error "ImportError"
        | some ctor =>
          match ctor ((lookupField cfg "params").getD (.jobj [])) with
          | .error e => .error e
          | .ok sel => .ok ((lookupField cfg "alias").getD clsVal, sel)
      | _ => .error "TypeError"

/-- The skip test of the engine (line 134): `cfg.get("activate", True) is
False` holds exactly when the value stored under `"activate"` is the
boolean `false`, since `is` compares against the `False` singleton and no
other decoded JSON value is that object. -/
def isDeactivated (fields : List (String × JVal)) : Bool :=
  match lookupField fields "activate" with
  | some (.jbool false) => true
  | _ => false

/-- ScreeningEngine loop (lines 132 to 143). Construction failures are
caught and skipped; an exception raised by `selector.select` is outside the
`try` and propagates, aborting the loop. A non-dict spec raises
`AttributeError` at `cfg.get` before the `try`. Aggregation
`results[alias] = picks` is a plain dict assignment (an unhashable alias
value would raise in Python; no claim involves one). The per-result logging
(lines 145 to 180) does not affect the returned value and is not
modelled. -/
def engineLoop (mod : SelectorModule) (trade_date : TS) (data : List (String × Series)) :
    List JVal → List (JVal × List String) → Outcome (List (JVal × List String))
  | [], results => .ret results
  | cfg :: rest, results =>
    match cfg with
    | .jobj fields =>
      if isDeactivated fields then engineLoop mod trade_date data rest results
      else
        match instantiate_selector mod fields with
        | .error _ => engineLoop mod trade_date data rest results
        | .ok (als, sel) =>
          match sel.select trade_date data with
          | .error e => .raise e
          | .ok picks =>
            engineLoop mod trade_date data rest (dictSet results als picks)
    | _ => .raise "AttributeError"

/-- Pandas strict comparison `item > result` on timestamps: every
comparison involving `NaT` is `False`. -/
def tsGt : TS → TS → Bool
  | some a, some b => a > b
  | _, _ => false

/-- Python builtin `max` over a non-empty sequence: start from the first
item and replace the running result only when the next item compares
strictly greater. With `tsGt` this keeps `NaT` forever when `NaT` comes
first, and ignores later `NaT` items. -/
def pyMax (first : TS) (rest : List TS) : TS :=
  rest.foldl (fun result item => if tsGt item result then item else result)
    first

/-- Python `max(df["date"].max() for df in data.values())`: the per-frame
maxima (`NaT`, that is `none`, for an empty header-only frame) combined by
the builtin `max` under `NaT`-comparison semantics; `max` of an empty
generator raises `ValueError` (unreachable after the empty-data check). -/
def autoTradeDate (data : List (String × Series)) : Outcome TS :=
  match data.map (fun p => List.max? p.2) with
  | [] => .raise "ValueError"
  | v :: vs => .ret (pyMax v vs)

/-- TradeDateResolver (lines 113 to 119): a truthy `args.date` is parsed
with `pd.to_datetime` — the external parser is the parameter `parse`;
`parse s = none` models the parse exception it raises on an invalid
format, and a parsed value is a timestamp or `NaT` — otherwise the builtin
maximum across the loaded series' maxima is used. The log line 119 formats
`trade_date.date()` and is not modelled (logging only). -/
def resolveTradeDate (parse : String → Option TS) (date : Option String)
    (data : List (String × Series)) : Outcome TS :=
  match date with
  | some s =>
    if s != "" then
      match parse s with
      | some d => .ret d
      | none => .raise "DateParseError"
    else autoTradeDate data
  | none => autoTradeDate data

/-- Python iteration `for cfg in selector_cfgs` over whatever value
`load_config` returned: lists yield their elements, dicts their keys,
strings their characters; anything else raises `TypeError`. -/
def pyIter : JVal → Outcome (List JVal)
  | .jarr xs => .ret xs
  | .jobj fs => .ret (fs.map (fun p => .jstr p.1))
  | .jstr s => .ret (s.toList.map (fun c => .jstr (String.mk [c])))
  | _ => .raise "TypeError"

/-- The screening entry point (`run_select_stock`, lines 91 to 182),
composed in source order: data directory check, universe computation, data
load, trade date resolution, configuration load, ETF-info load (logging
only, not modelled), then the engine loop. `ret none` is the sentinel
`return None`. -/
def run_select_stock (parse : String → Option TS) (mod : SelectorModule)
    (env : Env) (args : Args) : Outcome (Option (List (JVal × List String))) :=
  if !env.dataDirExists then .ret none
  else
    let codes := computeCodes env args.tickers
    if codes.isEmpty then .ret none
    else
      let data := load_data env codes
      if data.isEmpty then .ret none
      else
        match resolveTradeDate parse args.date data with
        | .exits => .exits
        | .raise e => .raise e
        | .ret trade_date =>
          match load_config env.configRaw with
          | .exits => .exits
          | .raise e => .raise e
          | .ret cfgsVal =>
            match pyIter cfgsVal with
            | .exits => .exits
            | .raise e => .raise e
            | .ret cfgs =>
              match engineLoop mod trade_date data cfgs [] with
              | .exits => .exits
              | .raise e => .raise e
              | .ret results => .ret (some results)

/-! Helper lemmas about the dictionary operations. -/

/-- The in-place update branch of `dictSet` preserves every key. -/
theorem find?_map_setValue {κ α : Type} [DecidableEq κ]
    (d : List (κ × α)) (k k' : κ) (v : α) :
    List.find? (fun p => decide (p.1 = k'))
        (d.map (fun p => if p.1 = k then (p.1, v) else p)) =
      (List.find? (fun p => decide (p.1 = k')) d).map
        (fun p => if p.1 = k then (p.1, v) else p) := by
  rw [List.find?_map]
  have hpred :
      ((fun p : κ × α => decide (p.1 = k')) ∘
          fun p => if p.1 = k then (p.1, v) else p) =
        fun p : κ × α => decide (p.1 = k') := by
    funext p
    by_cases hp : p.1 = k <;> simp [Function.comp, hp]
  rw [hpred]

/-- Setting a key and reading it back yields the new value. -/
theorem dictGet_dictSet_self {κ α : Type} [DecidableEq κ]
    (d : List (κ × α)) (k : κ) (v : α) :
    dictGet (dictSet d k v) k = some v := by
  unfold dictSet dictGet
  by_cases h : d.any (fun p => decide (p.1 = k)) = true
  · rw [if_pos h, find?_map_setValue]
    rcases List.any_eq_true.mp h with ⟨p, hp, hpk⟩
    rcases hfind : List.find? (fun p => decide (p.1 = k)) d with _ | q
    · rw [List.find?_eq_none] at hfind
      exact absurd hpk (hfind p hp)
    · have hq : q.1 = k := by simpa using List.find?_some hfind
      have hqk : (if q.1 = k then (q.1, v) else q) = (q.1, v) := if_pos hq
      rw [hfind]
      simp [hqk]
  · rw [if_neg h, List.find?_append]
    have hnone : List.find? (fun p => decide (p.1 = k)) d = none := by
      rw [List.find?_eq_none]
      intro p hp hpk
      exact h (List.any_eq_true.mpr ⟨p, hp, hpk⟩)
    simp [hnone]

/-- Setting one key leaves the value stored under any other key unchanged. -/
theorem dictGet_dictSet_ne {κ α : Type} [DecidableEq κ]
    (d : List (κ × α)) (k k' : κ) (v : α) (hne : k' ≠ k) :
    dictGet (dictSet d k v) k' = dictGet d k' := by
  unfold dictSet dictGet
  by_cases h : d.any (fun p => decide (p.1 = k)) = true
  · rw [if_pos h, find?_map_setValue]
    rcases hfind : List.find? (fun p => decide (p.1 = k')) d with _ | q
    · rw [hfind]
      rfl
    · have hq : q.1 = k' := by simpa using List.find?_some hfind
      have hqk : (if q.1 = k then (q.1, v) else q) = q :=
        if_neg (by rw [hq]; exact hne)
      rw [hfind]
      simp [hqk]
  · rw [if_neg h, List.find?_append]
    have : List.find? (fun p => decide (p.1 = k')) [(k, v)] = none := by
      simp [List.find?, Ne.symm hne]
    rcases hfind : List.find? (fun p => decide (p.1 = k')) d with _ | q <;>
      simp [hfind, this]

/-- The keys after a `dictSet` are the old keys plus the written key. -/
theorem mem_keys_dictSet {κ α : Type} [DecidableEq κ]
    (d : List (κ × α)) (k c : κ) (v : α) :
    c ∈ (dictSet d k v).map Prod.fst ↔ c = k ∨ c ∈ d.map Prod.fst := by
  unfold dictSet
  by_cases h : d.any (fun p => decide (p.1 = k)) = true
  · rw [if_pos h]
    have hkeys : (d.map (fun p => if p.1 = k then (p.1, v) else p)).map Prod.fst
        = d.map Prod.fst := by
      rw [List.map_map]
      apply List.map_congr_left
      intro p _
      by_cases hp : p.1 = k <;> simp [Function.comp, hp]
    rw [hkeys]
    rcases List.any_eq_true.mp h with ⟨p, hp, hpk⟩
    have hk : k ∈ d.map Prod.fst := by
      have : p.1 = k := by simpa using hpk
      exact this ▸ List.mem_map_of_mem Prod.fst hp
    constructor
    · exact fun hc => Or.inr hc
    · rintro (rfl | hc)
      · exact hk
      · exact hc
  · rw [if_neg h]
    simp [or_comm]

/-! Helper lemmas about `load_data`. -/

/-- Key membership across the `load_data` fold, generalized over the
accumulator. -/
theorem load_data_foldl_keys (env : Env) :
    ∀ (codes : List String) (init : List (String × Series)) (c : String),
      c ∈ ((codes.foldl
            (fun frames code =>
              match fileFor env code with
              | none => frames
              | some df => dictSet frames code (sortSeries df)) init).map
          Prod.fst)
        ↔ c ∈ init.map Prod.fst ∨ (c ∈ codes ∧ fileFor env c ≠ none) := by
  intro codes
  induction codes with
  | nil => simp
  | cons code rest ih =>
    intro init c
    rw [List.foldl_cons, ih]
    rcases hf : fileFor env code with _ | df
    · by_cases hc : c = code
      · subst hc
        simp [hf]
      · simp [List.mem_cons, hc]
    · rw [mem_keys_dictSet]
      by_cases hc : c = code
      · subst hc
        simp [hf]
      · simp [List.mem_cons, hc]

/-- The mapping `load_data` produces holds exactly the requested codes whose
backing file exists. -/
theorem load_data_keys (env : Env) (codes : List String) (c : String) :
    c ∈ (load_data env codes).map Prod.fst ↔
      c ∈ codes ∧ fileFor env c ≠ none := by
  unfold load_data
  rw [load_data_foldl_keys]
  simp

/-! Helper lemmas about maxima and the trade date. -/

/-- Characterization of `List.max?` over the integers. -/
theorem intMax?_eq_some_iff (l : List Int) (m : Int) :
    l.max? = some m ↔ m ∈ l ∧ ∀ x ∈ l, x ≤ m := by
  haveI : Std.Antisymm (fun a b : Int => a ≤ b) := ⟨fun h1 h2 => le_antisymm h1 h2⟩
  exact List.max?_eq_some_iff (fun a => le_refl a) max_choice
    (fun _ _ _ => max_le_iff)

/-- Unfolding one step of the builtin `max` loop. -/
theorem pyMax_cons (first v : TS) (vs : List TS) :
    pyMax first (v :: vs) = pyMax (if tsGt v first then v else first) vs :=
  rfl

/-- A first `NaT` absorbs the builtin `max`: nothing compares greater. -/
theorem pyMax_none (vs : List TS) : pyMax none vs = none := by
  induction vs with
  | nil => rfl
  | cons v vs ih =>
    rw [pyMax_cons]
    have hstep : (if tsGt v none then v else none) = none := by
      rcases v with _ | a <;> rfl
    rw [hstep, ih]

/-- A first real timestamp makes the builtin `max` the ordinary maximum of
the non-`NaT` items: later `NaT` items never compare greater. -/
theorem pyMax_some (vs : List TS) : ∀ t : Int,
    pyMax (some t) vs = some ((vs.filterMap id).foldl max t) := by
  induction vs with
  | nil => intro t; rfl
  | cons v vs ih =>
    intro t
    rw [pyMax_cons]
    rcases v with _ | u
    · have hstep : (if tsGt none (some t) then none else some t) = some t :=
        rfl
      rw [hstep, ih t]
      simp [List.filterMap_cons]
    · by_cases hgt : t < u
      · have hstep : (if tsGt (some u) (some t) then some u else some t) =
            some u := by
          simp [tsGt, hgt]
        rw [hstep, ih u]
        simp [List.filterMap_cons, List.foldl_cons,
          max_eq_right (le_of_lt hgt)]
      · have hstep : (if tsGt (some u) (some t) then some u else some t) =
            some t := by
          simp [tsGt, hgt]
        rw [hstep, ih t]
        simp [List.filterMap_cons, List.foldl_cons,
          max_eq_left (not_lt.mp hgt)]

/-- An empty first series makes the generator maximum `NaT`. -/
theorem autoTradeDate_head_empty (p : String × Series)
    (data' : List (String × Series)) (hp : p.2 = []) :
    autoTradeDate (p :: data') = .ret none := by
  unfold autoTradeDate
  rw [List.map_cons]
  show Outcome.ret
      (pyMax (List.max? p.2) (data'.map fun q => List.max? q.2)) = .ret none
  rw [hp]
  show Outcome.ret (pyMax none (data'.map fun q => List.max? q.2)) =
    .ret none
  rw [pyMax_none]

/-- With a non-empty first series, the generator maximum is any value that
occurs in some loaded series and bounds every date of every loaded
series. -/
theorem autoTradeDate_head_nonempty (p : String × Series)
    (data' : List (String × Series)) (m : Int) (hp : p.2 ≠ [])
    (hmem : m ∈ ((p :: data').map Prod.snd).flatten)
    (hub : ∀ d ∈ ((p :: data').map Prod.snd).flatten, d ≤ m) :
    autoTradeDate (p :: data') = .ret (some m) := by
  have hflat : ((p :: data').map Prod.snd).flatten =
      p.2 ++ ((data'.map Prod.snd).flatten) := by
    rw [List.map_cons, List.flatten_cons]
  rw [hflat] at hmem hub
  have hLmem : ∀ x : Int,
      x ∈ (data'.map (fun q => List.max? q.2)).filterMap id ↔
        ∃ q ∈ data', List.max? q.2 = some x := by
    intro x
    constructor
    · intro hx
      rcases List.mem_filterMap.mp hx with ⟨v, hv, hvx⟩
      rcases List.mem_map.mp hv with ⟨q, hq, rfl⟩
      exact ⟨q, hq, hvx⟩
    · rintro ⟨q, hq, hqx⟩
      exact List.mem_filterMap.mpr
        ⟨List.max? q.2, List.mem_map_of_mem (fun q => List.max? q.2) hq, hqx⟩
  obtain ⟨t, ht⟩ : ∃ t, List.max? p.2 = some t := by
    rcases hq : p.2 with _ | ⟨x, xs⟩
    · exact absurd hq hp
    · exact ⟨xs.foldl max x, rfl⟩
  obtain ⟨htmem, htub⟩ := (intMax?_eq_some_iff p.2 t).mp ht
  unfold autoTradeDate
  rw [List.map_cons]
  show Outcome.ret
      (pyMax (List.max? p.2) (data'.map fun q => List.max? q.2)) =
    .ret (some m)
  rw [ht, pyMax_some]
  have hchar : some
      (((data'.map fun q => List.max? q.2).filterMap id).foldl max t) =
      List.max? (t :: (data'.map fun q => List.max? q.2).filterMap id) :=
    rfl
  have hgoal : List.max?
      (t :: (data'.map fun q => List.max? q.2).filterMap id) = some m := by
    rw [intMax?_eq_some_iff]
    constructor
    · rcases List.mem_append.mp hmem with hmp | hmd
      · have h1 : m ≤ t := htub m hmp
        have h2 : t ≤ m := hub t (List.mem_append.mpr (Or.inl htmem))
        exact le_antisymm h2 h1 ▸ List.mem_cons_self t _
      · rcases List.mem_flatten.mp hmd with ⟨s, hs, hms⟩
        rcases List.mem_map.mp hs with ⟨q, hq, rfl⟩
        obtain ⟨u, hu⟩ : ∃ u, List.max? q.2 = some u := by
          rcases hq2 : q.2 with _ | ⟨x, xs⟩
          · rw [hq2] at hms; cases hms
          · exact ⟨xs.foldl max x, rfl⟩
        obtain ⟨humem, huub⟩ := (intMax?_eq_some_iff q.2 u).mp hu
        have h1 : m ≤ u := huub m hms
        have h2 : u ≤ m := hub u (List.mem_append.mpr (Or.inr
          (List.mem_flatten.mpr
            ⟨q.2, List.mem_map_of_mem Prod.snd hq, humem⟩)))
        have hum : u = m := le_antisymm h2 h1
        exact List.mem_cons_of_mem t
          ((hLmem m).mpr ⟨q, hq, hum ▸ hu⟩)
    · intro x hx
      rcases List.mem_cons.mp hx with rfl | hxL
      · exact hub x (List.mem_append.mpr (Or.inl htmem))
      · rcases (hLmem x).mp hxL with ⟨q, hq, hqx⟩
        obtain ⟨hxmem, _⟩ := (intMax?_eq_some_iff q.2 x).mp hqx
        exact hub x (List.mem_append.mpr (Or.inr
          (List.mem_flatten.mpr
            ⟨q.2, List.mem_map_of_mem Prod.snd hq, hxmem⟩)))
  rw [hchar, hgoal]

/-! Helper lemmas about the engine loop. -/

/-- A value under `"activate"` other than the boolean `false` (or no such
key) does not deactivate a spec. -/
theorem isDeactivated_eq_false (fields : List (String × JVal))
    (h : lookupField fields "activate" = none ∨
      ∃ v, lookupField fields "activate" = some v ∧ v ≠ .jbool false) :
    isDeactivated fields = false := by
  unfold isDeactivated
  rcases h with h | ⟨v, hv, hne⟩
  · rw [h]
  · rw [hv]
    rcases v with _ | b | n | s | xs | fs
    · rfl
    · cases b
      · exact absurd rfl hne
      · rfl
    · rfl
    · rfl
    · rfl
    · rfl

/-- A deactivated spec is skipped: the engine continues on the rest with
the same module, data, and accumulated results. -/
theorem engineLoop_skip (mod : SelectorModule) (td : TS)
    (data : List (String × Series)) (fields : List (String × JVal))
    (rest : List JVal) (res : List (JVal × List String))
    (h : isDeactivated fields = true) :
    engineLoop mod td data (.jobj fields :: rest) res =
      engineLoop mod td data rest res := by
  simp [engineLoop, h]

/-- A spec whose construction fails is skipped. -/
theorem engineLoop_construct_fail (mod : SelectorModule) (td : TS)
    (data : List (String × Series)) (fields : List (String × JVal))
    (rest : List JVal) (res : List (JVal × List String)) (e : String)
    (hact : isDeactivated fields = false)
    (hinst : instantiate_selector mod fields = .error e) :
    engineLoop mod td data (.jobj fields :: rest) res =
      engineLoop mod td data rest res := by
  simp [engineLoop, hact, hinst]

/-- An active spec whose construction and selection both succeed stores its
picks under its alias and the engine continues. -/
theorem engineLoop_exec (mod : SelectorModule) (td : TS)
    (data : List (String × Series)) (fields : List (String × JVal))
    (rest : List JVal) (res : List (JVal × List String)) (als : JVal)
    (sel : Selector) (picks : List String)
    (hact : isDeactivated fields = false)
    (hinst : instantiate_selector mod fields = .ok (als, sel))
    (hsel : sel.select td data = .ok picks) :
    engineLoop mod td data (.jobj fields :: rest) res =
      engineLoop mod td data rest (dictSet res als picks) := by
  simp [engineLoop, hact, hinst, hsel]

/-- An active spec whose `select` raises aborts the engine loop with that
exception. -/
theorem engineLoop_select_raise (mod : SelectorModule) (td : TS)
    (data : List (String × Series)) (fields : List (String × JVal))
    (rest : List JVal) (res : List (JVal × List String)) (als : JVal)
    (sel : Selector) (e : String)
    (hact : isDeactivated fields = false)
    (hinst : instantiate_selector mod fields = .ok (als, sel))
    (hsel : sel.select td data = .error e) :
    engineLoop mod td data (.jobj fields :: rest) res = .raise e := by
  simp [engineLoop, hact, hinst, hsel]

/-! Helper lemmas unfolding `run_select_stock`. -/

/-- A missing data directory returns the sentinel at once. -/
theorem run_retNone_of_no_dataDir (parse : String → Option TS)
    (mod : SelectorModule) (env : Env) (args : Args)
    (h : env.dataDirExists = false) :
    run_select_stock parse mod env args = .ret none := by
  unfold run_select_stock
  rw [h]
  rfl

/-- An empty universe returns the sentinel. -/
theorem run_retNone_of_codes_nil (parse : String → Option TS)
    (mod : SelectorModule) (env : Env) (args : Args)
    (h1 : env.dataDirExists = true)
    (h2 : computeCodes env args.tickers = []) :
    run_select_stock parse mod env args = .ret none := by
  unfold run_select_stock
  rw [h1]
  simp [h2]

/-- An empty loaded mapping returns the sentinel. -/
theorem run_retNone_of_data_nil (parse : String → Option TS)
    (mod : SelectorModule) (env : Env) (args : Args)
    (h1 : env.dataDirExists = true)
    (h2 : computeCodes env args.tickers ≠ [])
    (h3 : load_data env (computeCodes env args.tickers) = []) :
    run_select_stock parse mod env args = .ret none := by
  unfold run_select_stock
  rw [h1]
  simp [h2, h3]

/-- Unfolding of the entry point past its three sentinel checks. -/
theorem run_eq_after_checks (parse : String → Option TS)
    (mod : SelectorModule) (env : Env) (args : Args)
    (h1 : env.dataDirExists = true)
    (h2 : computeCodes env args.tickers ≠ [])
    (h3 : load_data env (computeCodes env args.tickers) ≠ []) :
    run_select_stock parse mod env args =
      (match resolveTradeDate parse args.date
          (load_data env (computeCodes env args.tickers)) with
       | .exits => .exits
       | .raise e => .raise e
       | .ret trade_date =>
         match load_config env.configRaw with
         | .exits => .exits
         | .raise e => .raise e
         | .ret cfgsVal =>
           match pyIter cfgsVal with
           | .exits => .exits
           | .raise e => .raise e
           | .ret cfgs =>
             match engineLoop mod trade_date
                 (load_data env (computeCodes env args.tickers)) cfgs [] with
             | .exits => .exits
             | .raise e => .raise e
             | .ret results => .ret (some results)) := by
  unfold run_select_stock
  rw [h1]
  simp [h2, h3]

/-! Concrete fixtures used by witnesses and counterexamples. -/

/-- A strategy that always picks the given codes. -/
def selOk (picks : List String) : Selector := ⟨fun _ _ => .ok picks⟩

/-- A strategy whose `select` raises the given exception. -/
def selRaise (msg : String) : Selector := ⟨fun _ _ => .error msg⟩

/-- A concrete `Selector` module with three classes: `Good` picks `X`,
`Good2` picks `Y`, and `Boom` raises `boom` during selection. -/
def mod0 : SelectorModule := fun n =>
  if n = "Good" then some (fun _ => .ok (selOk ["X"]))
  else if n = "Good2" then some (fun _ => .ok (selOk ["Y"]))
  else if n = "Boom" then some (fun _ => .ok (selRaise "boom"))
  else none

/-- A concrete date parser accepting a single valid date string. -/
def parse0 : String → Option TS := fun s =>
  if s = "2025-01-02" then some (some 20250102) else none

/-! The claims. -/

/-- C4 counterexample: with a header-only (empty) first series, the
resolver yields `NaT` (`none`) — not the maximum date `5` present across
the loaded series — because `Timestamp > NaT` is `False` inside the
builtin `max`, so a first `NaT` per-frame maximum is never replaced. -/
theorem C4_counterexample :
    resolveTradeDate parse0 none [("A", []), ("B", [5])] = .ret none
    ∧ resolveTradeDate parse0 none [("A", []), ("B", [5])] ≠
        .ret (some 5) := by
  constructor
  · decide
  · decide

/-- C4 (corrected, amended): an explicit non-empty trade date resolves to
exactly its parsed value regardless of any instrument's available date
range. With no explicit date, provided the first loaded series is
non-empty, the resolved trade date is the maximum over all loaded series
of each series' maximum date — the greatest date occurring anywhere in the
loaded data; when the first loaded series is empty, its `NaT` maximum
absorbs the builtin `max` and the resolver yields `NaT` instead. -/
theorem C4_trade_date_resolution (parse : String → Option TS)
    (data : List (String × Series)) :
    (∀ s ts, s ≠ "" → parse s = some ts →
      resolveTradeDate parse (some s) data = .ret ts)
    ∧ (∀ p data' m, data = p :: data' → p.2 ≠ [] →
        m ∈ (data.map Prod.snd).flatten →
        (∀ d ∈ (data.map Prod.snd).flatten, d ≤ m) →
        resolveTradeDate parse none data = .ret (some m))
    ∧ (∀ p data', data = p :: data' → p.2 = [] →
        resolveTradeDate parse none data = .ret none) := by
  refine ⟨fun s ts hs hp => ?_, fun p data' m hdata hp hmem hub => ?_,
    fun p data' hdata hp => ?_⟩
  · unfold resolveTradeDate
    simp [hs, hp]
  · subst hdata
    unfold resolveTradeDate
    exact autoTradeDate_head_nonempty p data' m hp hmem hub
  · subst hdata
    unfold resolveTradeDate
    exact autoTradeDate_head_empty p data' hp

/-- C4 witness: a concrete parser and data sets exercising all three
parts. -/
theorem C4_trade_date_resolution_witness :
    resolveTradeDate parse0 (some "2025-01-02") [("AAA", [1, 5, 3])] =
        .ret (some 20250102)
    ∧ resolveTradeDate parse0 none [("AAA", [1, 5, 3]), ("BBB", [2])] =
        .ret (some 5)
    ∧ resolveTradeDate parse0 none [("E", []), ("BBB", [7])] =
        .ret none := by
  refine ⟨?_, ?_, ?_⟩
  · exact (C4_trade_date_resolution parse0 [("AAA", [1, 5, 3])]).1
      "2025-01-02" (some 20250102) (by decide) (by decide)
  · exact (C4_trade_date_resolution parse0
      [("AAA", [1, 5, 3]), ("BBB", [2])]).2.1 ("AAA", [1, 5, 3])
      [("BBB", [2])] 5 rfl (by decide) (by decide) (by decide)
  · exact (C4_trade_date_resolution parse0 [("E", []), ("BBB", [7])]).2.2
      ("E", []) [("BBB", [7])] rfl rfl

/-- C5 (confirmed): the three accepted configuration document shapes
encoding the same logical spec list normalize to equal lists: an array
yields itself, an object holding a `selectors` array yields that array, and
a single spec object (an object without a `selectors` key) yields the
one-element list holding it. -/
theorem C5_config_shapes_normalize_equal (specs : List JVal)
    (fields : List (String × JVal)) :
    normalizeConfig (.jarr specs) = .jarr specs
    ∧ (lookupField fields "selectors" = some (.jarr specs) →
        normalizeConfig (.jobj fields) = .jarr specs)
    ∧ (lookupField fields "selectors" = none →
        normalizeConfig (.jobj fields) = .jarr [.jobj fields]) := by
  refine ⟨rfl, fun h => ?_, fun h => ?_⟩
  · simp [normalizeConfig, h]
  · simp [normalizeConfig, h]

/-- C5 witness: a concrete one-spec logical list rendered in all three
shapes normalizes to the same list. -/
theorem C5_config_shapes_normalize_equal_witness :
    normalizeConfig (.jarr [.jobj [("class", .jstr "Good")]]) =
        .jarr [.jobj [("class", .jstr "Good")]]
    ∧ normalizeConfig
        (.jobj [("selectors", .jarr [.jobj [("class", .jstr "Good")]])]) =
        .jarr [.jobj [("class", .jstr "Good")]]
    ∧ normalizeConfig (.jobj [("class", .jstr "Good")]) =
        .jarr [.jobj [("class", .jstr "Good")]] :=
  ⟨(C5_config_shapes_normalize_equal [.jobj [("class", .jstr "Good")]] []).1,
   (C5_config_shapes_normalize_equal [.jobj [("class", .jstr "Good")]]
      [("selectors", .jarr [.jobj [("class", .jstr "Good")]])]).2.1
     (by decide),
   (C5_config_shapes_normalize_equal [.jobj [("class", .jstr "Good")]]
      [("class", .jstr "Good")]).2.2 (by decide)⟩

/-- C6 (confirmed): the loaded mapping holds exactly the requested codes
whose backing file exists (a missing file only omits that code with a
warning), and an empty resulting mapping — all requested codes missing, or
an empty request — makes the run fail fatally with the sentinel. -/
theorem C6_load_partial_and_empty_fatal (parse : String → Option TS)
    (mod : SelectorModule) (env : Env) (args : Args) (codes : List String)
    (c : String) :
    (c ∈ (load_data env codes).map Prod.fst ↔
      c ∈ codes ∧ fileFor env c ≠ none)
    ∧ (env.dataDirExists = true →
        computeCodes env args.tickers ≠ [] →
        load_data env (computeCodes env args.tickers) = [] →
        run_select_stock parse mod env args = .ret none)
    ∧ (env.dataDirExists = true →
        computeCodes env args.tickers = [] →
        run_select_stock parse mod env args = .ret none) :=
  ⟨load_data_keys env codes c,
   fun h1 h2 h3 => run_retNone_of_data_nil parse mod env args h1 h2 h3,
   fun h1 h2 => run_retNone_of_codes_nil parse mod env args h1 h2⟩

/-- C6 witness: requesting `A` and `B` when only `A` exists loads exactly
`A`; requesting only missing codes returns the sentinel; an empty request
returns the sentinel. -/
theorem C6_load_partial_and_empty_fatal_witness :
    ("A" ∈ (load_data ⟨true, [("A", [1])], none⟩ ["A", "B"]).map Prod.fst ↔
      "A" ∈ ["A", "B"] ∧ fileFor ⟨true, [("A", [1])], none⟩ "A" ≠ none)
    ∧ run_select_stock parse0 mod0 ⟨true, [("A", [1])], none⟩ ⟨none, "C,D"⟩ =
        .ret none
    ∧ run_select_stock parse0 mod0 ⟨true, [("A", [1])], none⟩ ⟨none, " , "⟩ =
        .ret none :=
  ⟨(C6_load_partial_and_empty_fatal parse0 mod0 ⟨true, [("A", [1])], none⟩
      ⟨none, "C,D"⟩ ["A", "B"] "A").1,
   (C6_load_partial_and_empty_fatal parse0 mod0 ⟨true, [("A", [1])], none⟩
      ⟨none, "C,D"⟩ ["A", "B"] "A").2.1 (by decide) (by decide) (by decide),
   (C6_load_partial_and_empty_fatal parse0 mod0 ⟨true, [("A", [1])], none⟩
      ⟨none, " , "⟩ ["A", "B"] "A").2.2 (by decide) (by decide)⟩

/-- C10 (confirmed): the tickers string is matched against `"all"`
case-insensitively; otherwise it is split on commas, each segment is
stripped of surrounding whitespace, empty segments are dropped, and an
empty resulting code list makes the entry point return the sentinel for
every possible data directory content — that is, before any file load. -/
theorem C10_universe_parsing (parse : String → Option TS)
    (mod : SelectorModule) (env : Env) (args : Args) :
    (pyLower args.tickers = "all" →
      computeCodes env args.tickers = env.csvFiles.map Prod.fst)
    ∧ (pyLower args.tickers ≠ "all" →
        computeCodes env args.tickers =
          ((pySplitComma args.tickers).map pystrip).filter
            (fun c => c ≠ ""))
    ∧ (env.dataDirExists = true →
        pyLower args.tickers ≠ "all" →
        ((pySplitComma args.tickers).map pystrip).filter (fun c => c ≠ "") =
          [] →
        run_select_stock parse mod env args = .ret none) := by
  have hcommute : ∀ t : String,
      ((pySplitComma t).filter (fun c => pystrip c != "")).map pystrip =
        ((pySplitComma t).map pystrip).filter (fun c => c ≠ "") := by
    intro t
    rw [List.filter_map]
    have hpred : ((fun c => decide (c ≠ "")) ∘ pystrip) =
        fun c => pystrip c != "" := by
      funext c
      by_cases h : pystrip c = "" <;> simp [Function.comp, h]
    rw [hpred]
  refine ⟨fun h => ?_, fun h => ?_, fun hdir h hnil => ?_⟩
  · unfold computeCodes
    rw [h]
    rfl
  · unfold computeCodes
    rw [if_neg (by simp [h]), hcommute]
  · refine run_retNone_of_codes_nil parse mod env args hdir ?_
    unfold computeCodes
    rw [if_neg (by simp [h]), hcommute, hnil]

/-- C10 witness: a concrete mixed-case `all`, a concrete comma list with
whitespace and empty segments, and an all-empty list returning the
sentinel. -/
theorem C10_universe_parsing_witness :
    computeCodes ⟨true, [("A", [1])], none⟩ "AlL" = ["A"]
    ∧ computeCodes ⟨true, [("A", [1])], none⟩ " B , ,C" =
        ((pySplitComma " B , ,C").map pystrip).filter (fun c => c ≠ "")
    ∧ run_select_stock parse0 mod0 ⟨true, [("A", [1])], none⟩
        ⟨none, " , ,"⟩ = .ret none :=
  ⟨(C10_universe_parsing parse0 mod0 ⟨true, [("A", [1])], none⟩
      ⟨none, "AlL"⟩).1 (by decide),
   (C10_universe_parsing parse0 mod0 ⟨true, [("A", [1])], none⟩
      ⟨none, " B , ,C"⟩).2.1 (by decide),
   (C10_universe_parsing parse0 mod0 ⟨true, [("A", [1])], none⟩
      ⟨none, " , ,"⟩).2.2 (by decide) (by decide) (by decide)⟩

/-- C3 counterexample: a spec whose `active` field is the boolean `false`
is nevertheless constructed and executed and contributes its entry to the
result — the engine's skip test reads the key `activate`, not `active`. -/
theorem C3_counterexample :
    engineLoop mod0 (some 0) []
        [.jobj [("class", .jstr "Good"), ("active", .jbool false)]] [] =
      .ret [(.jstr "Good", ["X"])] := by
  decide

/-- C3 (corrected, amended): a spec whose `activate` field (not `active`)
is the boolean `false` is skipped entirely: the engine continues on the
remaining specs with its accumulated results untouched, so the spec is
never constructed, never executed, and contributes no entry and no
failure. -/
theorem C3_deactivated_spec_skipped (mod : SelectorModule) (td : TS)
    (data : List (String × Series)) (fields : List (String × JVal))
    (rest : List JVal) (res : List (JVal × List String))
    (h : lookupField fields "activate" = some (.jbool false)) :
    engineLoop mod td data (.jobj fields :: rest) res =
      engineLoop mod td data rest res := by
  refine engineLoop_skip mod td data fields rest res ?_
  unfold isDeactivated
  rw [h]

/-- C3 witness: a concrete deactivated spec is skipped. -/
theorem C3_deactivated_spec_skipped_witness :
    engineLoop mod0 (some 0) []
        [.jobj [("class", .jstr "Good"), ("activate", .jbool false)]] [] =
      engineLoop mod0 (some 0) [] [] [] :=
  C3_deactivated_spec_skipped mod0 (some 0) []
    [("class", .jstr "Good"), ("activate", .jbool false)] [] [] (by decide)

/-- C9 (confirmed): the engine skips a spec only when the value under the
key `activate` is the literal boolean `false`; a spec whose `activate`
value is anything else — `0`, the empty string, `null` — or whose `false`
sits under the key `active`, is still constructed and executed and stores
its picks under its alias. -/
theorem C9_only_literal_false_deactivates (mod : SelectorModule) (td : TS)
    (data : List (String × Series)) (fields : List (String × JVal))
    (rest : List JVal) (res : List (JVal × List String)) (als : JVal)
    (sel : Selector) (picks : List String)
    (hkey : lookupField fields "activate" = none ∨
      ∃ v, lookupField fields "activate" = some v ∧ v ≠ .jbool false)
    (hinst : instantiate_selector mod fields = .ok (als, sel))
    (hsel : sel.select td data = .ok picks) :
    engineLoop mod td data (.jobj fields :: rest) res =
      engineLoop mod td data rest (dictSet res als picks) :=
  engineLoop_exec mod td data fields rest res als sel picks
    (isDeactivated_eq_false fields hkey) hinst hsel

/-- C9 witness: a `false` under `active`, and falsy non-`false` values
under `activate` (`0` and `null`), all leave the spec executed. -/
theorem C9_only_literal_false_deactivates_witness :
    (engineLoop mod0 (some 0) []
        [.jobj [("class", .jstr "Good"), ("active", .jbool false)]] [] =
      engineLoop mod0 (some 0) [] [] (dictSet [] (.jstr "Good") ["X"]))
    ∧ (engineLoop mod0 (some 0) []
        [.jobj [("class", .jstr "Good"), ("activate", .jnum 0)]] [] =
      engineLoop mod0 (some 0) [] [] (dictSet [] (.jstr "Good") ["X"]))
    ∧ (engineLoop mod0 (some 0) []
        [.jobj [("class", .jstr "Good"), ("activate", .jnull)]] [] =
      engineLoop mod0 (some 0) [] [] (dictSet [] (.jstr "Good") ["X"])) :=
  ⟨C9_only_literal_false_deactivates mod0 (some 0) []
      [("class", .jstr "Good"), ("active", .jbool false)] [] []
      (.jstr "Good") (selOk ["X"]) ["X"] (Or.inl (by decide)) rfl rfl,
   C9_only_literal_false_deactivates mod0 (some 0) []
      [("class", .jstr "Good"), ("activate", .jnum 0)] [] []
      (.jstr "Good") (selOk ["X"]) ["X"]
      (Or.inr ⟨.jnum 0, by decide, by decide⟩) rfl rfl,
   C9_only_literal_false_deactivates mod0 (some 0) []
      [("class", .jstr "Good"), ("activate", .jnull)] [] []
      (.jstr "Good") (selOk ["X"]) ["X"]
      (Or.inr ⟨.jnull, by decide, by decide⟩) rfl rfl⟩

/-- C7 (confirmed): with two successfully executed specs, a shared alias
ends up holding exactly the later spec's result (last-write-wins), and
distinct aliases each hold their own spec's result. -/
theorem C7_alias_last_write_wins (mod : SelectorModule) (td : TS)
    (data : List (String × Series)) (f1 f2 : List (String × JVal))
    (a1 a2 : JVal) (sel1 sel2 : Selector) (p1 p2 : List String)
    (hact1 : isDeactivated f1 = false) (hact2 : isDeactivated f2 = false)
    (hi1 : instantiate_selector mod f1 = .ok (a1, sel1))
    (hi2 : instantiate_selector mod f2 = .ok (a2, sel2))
    (hs1 : sel1.select td data = .ok p1)
    (hs2 : sel2.select td data = .ok p2) :
    ∃ R, engineLoop mod td data [.jobj f1, .jobj f2] [] = .ret R
      ∧ (a1 = a2 → dictGet R a2 = some p2 ∧ dictGet R a1 = some p2)
      ∧ (a1 ≠ a2 → dictGet R a1 = some p1 ∧ dictGet R a2 = some p2) := by
  refine ⟨dictSet (dictSet [] a1 p1) a2 p2, ?_, ?_, ?_⟩
  · rw [engineLoop_exec mod td data f1 [.jobj f2] [] a1 sel1 p1 hact1 hi1 hs1,
      engineLoop_exec mod td data f2 [] (dictSet [] a1 p1) a2 sel2 p2 hact2
        hi2 hs2]
    rfl
  · intro h
    exact ⟨dictGet_dictSet_self (dictSet [] a1 p1) a2 p2,
      h ▸ dictGet_dictSet_self (dictSet [] a1 p1) a2 p2⟩
  · intro h
    exact ⟨(dictGet_dictSet_ne (dictSet [] a1 p1) a2 a1 p2 h).trans
        (dictGet_dictSet_self [] a1 p1),
      dictGet_dictSet_self (dictSet [] a1 p1) a2 p2⟩

/-- C7 witness: two specs sharing alias `Z` leave the later result `Y`
under `Z`; two specs with their distinct default aliases each keep their
own result. -/
theorem C7_alias_last_write_wins_witness :
    (∃ R, engineLoop mod0 (some 0) []
          [.jobj [("class", .jstr "Good"), ("alias", .jstr "Z")],
            .jobj [("class", .jstr "Good2"), ("alias", .jstr "Z")]] [] =
        .ret R
      ∧ ((JVal.jstr "Z") = .jstr "Z" →
          dictGet R (.jstr "Z") = some ["Y"] ∧
            dictGet R (.jstr "Z") = some ["Y"])
      ∧ ((JVal.jstr "Z") ≠ .jstr "Z" →
          dictGet R (.jstr "Z") = some ["X"] ∧
            dictGet R (.jstr "Z") = some ["Y"]))
    ∧ (∃ R, engineLoop mod0 (some 0) []
          [.jobj [("class", .jstr "Good")],
            .jobj [("class", .jstr "Good2")]] [] = .ret R
      ∧ ((JVal.jstr "Good") = .jstr "Good2" →
          dictGet R (.jstr "Good2") = some ["Y"] ∧
            dictGet R (.jstr "Good") = some ["Y"])
      ∧ ((JVal.jstr "Good") ≠ .jstr "Good2" →
          dictGet R (.jstr "Good") = some ["X"] ∧
            dictGet R (.jstr "Good2") = some ["Y"])) :=
  ⟨C7_alias_last_write_wins mod0 (some 0) []
      [("class", .jstr "Good"), ("alias", .jstr "Z")]
      [("class", .jstr "Good2"), ("alias", .jstr "Z")]
      (.jstr "Z") (.jstr "Z") (selOk ["X"]) (selOk ["Y"]) ["X"] ["Y"]
      rfl rfl rfl rfl rfl rfl,
   C7_alias_last_write_wins mod0 (some 0) []
      [("class", .jstr "Good")] [("class", .jstr "Good2")]
      (.jstr "Good") (.jstr "Good2") (selOk ["X"]) (selOk ["Y"]) ["X"] ["Y"]
      rfl rfl rfl rfl rfl rfl⟩

/-- C1 counterexample: two active specs whose constructions succeed, and
the second spec's `select` raises; the whole run raises instead of
returning the aggregate holding the first spec's result, so the selection
exception is not caught and not treated like a construction failure. -/
theorem C1_counterexample :
    run_select_stock parse0 mod0
        ⟨true, [("AAA", [1, 2])],
          some (.jarr [.jobj [("class", .jstr "Good")],
            .jobj [("class", .jstr "Boom")]])⟩
        ⟨none, "all"⟩ = .raise "boom"
    ∧ run_select_stock parse0 mod0
        ⟨true, [("AAA", [1, 2])],
          some (.jarr [.jobj [("class", .jstr "Good")],
            .jobj [("class", .jstr "Boom")]])⟩
        ⟨none, "all"⟩ ≠ .ret (some [(.jstr "Good", ["X"])]) := by
  constructor
  · decide
  · decide

/-- C1 (corrected, amended): construction failures are isolated — the spec
is skipped and the engine continues — but an exception raised by a
strategy's `select` operation is outside the `try` block: it is not
caught, and it aborts the engine loop (and with it the whole run) instead
of being treated like a construction failure. -/
theorem C1_select_exception_not_isolated (mod : SelectorModule) (td : TS)
    (data : List (String × Series)) (fields : List (String × JVal))
    (rest : List JVal) (res : List (JVal × List String)) (als : JVal)
    (sel : Selector) (e : String)
    (hact : isDeactivated fields = false) :
    (instantiate_selector mod fields = .error e →
      engineLoop mod td data (.jobj fields :: rest) res =
        engineLoop mod td data rest res)
    ∧ (instantiate_selector mod fields = .ok (als, sel) →
        sel.select td data = .error e →
        engineLoop mod td data (.jobj fields :: rest) res = .raise e) :=
  ⟨fun hinst => engineLoop_construct_fail mod td data fields rest res e
      hact hinst,
   fun hinst hsel => engineLoop_select_raise mod td data fields rest res
      als sel e hact hinst hsel⟩

/-- C1 witness: an unknown class is skipped and the loop continues; a
raising `select` aborts the loop. -/
theorem C1_select_exception_not_isolated_witness :
    (engineLoop mod0 (some 0) [] [.jobj [("class", .jstr "Nope")]] [] =
      engineLoop mod0 (some 0) [] [] [])
    ∧ (engineLoop mod0 (some 0) [] [.jobj [("class", .jstr "Boom")]] [] =
      .raise "boom") :=
  ⟨(C1_select_exception_not_isolated mod0 (some 0) []
      [("class", .jstr "Nope")] [] [] (.jstr "Boom") (selRaise "boom")
      "ImportError" rfl).1 rfl,
   (C1_select_exception_not_isolated mod0 (some 0) []
      [("class", .jstr "Boom")] [] [] (.jstr "Boom") (selRaise "boom")
      "boom" rfl).2 rfl rfl⟩

/-- C2 counterexample: with the data directory present and data loaded, a
missing configuration document terminates the process via `sys.exit(1)`
instead of returning the sentinel failure value to the caller. -/
theorem C2_counterexample :
    run_select_stock parse0 mod0 ⟨true, [("AAA", [1, 2])], none⟩
        ⟨none, "AAA"⟩ = .exits
    ∧ run_select_stock parse0 mod0 ⟨true, [("AAA", [1, 2])], none⟩
        ⟨none, "AAA"⟩ ≠ .ret none := by
  constructor
  · decide
  · decide

/-- C2 (corrected, amended): of the four fatal conditions, the two
data-side ones (data directory missing; no instrument series loaded,
including an empty universe) return the sentinel `None` to the caller,
while the two configuration-side ones (configuration document absent;
normalized spec list empty) terminate the process via `sys.exit(1)` rather
than returning. -/
theorem C2_fatal_conditions_behavior (parse : String → Option TS)
    (mod : SelectorModule) (env : Env) (args : Args) :
    (env.dataDirExists = false →
      run_select_stock parse mod env args = .ret none)
    ∧ (env.dataDirExists = true →
        computeCodes env args.tickers ≠ [] →
        load_data env (computeCodes env args.tickers) = [] →
        run_select_stock parse mod env args = .ret none)
    ∧ (∀ td, env.dataDirExists = true →
        computeCodes env args.tickers ≠ [] →
        load_data env (computeCodes env args.tickers) ≠ [] →
        resolveTradeDate parse args.date
            (load_data env (computeCodes env args.tickers)) = .ret td →
        env.configRaw = none →
        run_select_stock parse mod env args = .exits)
    ∧ (∀ td raw, env.dataDirExists = true →
        computeCodes env args.tickers ≠ [] →
        load_data env (computeCodes env args.tickers) ≠ [] →
        resolveTradeDate parse args.date
            (load_data env (computeCodes env args.tickers)) = .ret td →
        env.configRaw = some raw →
        (normalizeConfig raw).truthy = false →
        run_select_stock parse mod env args = .exits) := by
  refine ⟨fun h => run_retNone_of_no_dataDir parse mod env args h,
    fun h1 h2 h3 => run_retNone_of_data_nil parse mod env args h1 h2 h3,
    fun td h1 h2 h3 hres hcfg => ?_, fun td raw h1 h2 h3 hres hcfg ht => ?_⟩
  · rw [run_eq_after_checks parse mod env args h1 h2 h3, hres]
    simp [load_config, hcfg]
  · rw [run_eq_after_checks parse mod env args h1 h2 h3, hres]
    simp [load_config, hcfg, ht]

/-- C2 witness: the four fatal conditions at concrete inputs — missing
directory and empty load return the sentinel; missing configuration and an
empty normalized spec list terminate the process. -/
theorem C2_fatal_conditions_behavior_witness :
    run_select_stock parse0 mod0 ⟨false, [], none⟩ ⟨none, "AAA"⟩ = .ret none
    ∧ run_select_stock parse0 mod0 ⟨true, [], none⟩ ⟨none, "AAA"⟩ = .ret none
    ∧ run_select_stock parse0 mod0 ⟨true, [("AAA", [1, 2])], none⟩
        ⟨none, "AAA"⟩ = .exits
    ∧ run_select_stock parse0 mod0
        ⟨true, [("AAA", [1, 2])], some (.jarr [])⟩ ⟨none, "AAA"⟩ = .exits :=
  ⟨(C2_fatal_conditions_behavior parse0 mod0 ⟨false, [], none⟩
      ⟨none, "AAA"⟩).1 rfl,
   (C2_fatal_conditions_behavior parse0 mod0 ⟨true, [], none⟩
      ⟨none, "AAA"⟩).2.1 rfl (by decide) (by decide),
   (C2_fatal_conditions_behavior parse0 mod0 ⟨true, [("AAA", [1, 2])], none⟩
      ⟨none, "AAA"⟩).2.2.1 (some 2) rfl (by decide) (by decide) (by decide) rfl,
   (C2_fatal_conditions_behavior parse0 mod0
      ⟨true, [("AAA", [1, 2])], some (.jarr [])⟩ ⟨none, "AAA"⟩).2.2.2 (some 2)
      (.jarr []) rfl (by decide) (by decide) (by decide) rfl (by decide)⟩

/-- C8 counterexample: an invalid explicit trade date makes the run raise
an uncaught parse exception rather than surfacing the sentinel failure
value to the caller. -/
theorem C8_counterexample :
    run_select_stock parse0 mod0
        ⟨true, [("AAA", [1, 2])],
          some (.jarr [.jobj [("class", .jstr "Good")]])⟩
        ⟨some "2025-13-99", "AAA"⟩ = .raise "DateParseError"
    ∧ run_select_stock parse0 mod0
        ⟨true, [("AAA", [1, 2])],
          some (.jarr [.jobj [("class", .jstr "Good")]])⟩
        ⟨some "2025-13-99", "AAA"⟩ ≠ .ret none := by
  constructor
  · decide
  · decide

/-- C8 (corrected, amended): an explicit trade date in an invalid format
is still fatal, but via an uncaught exception propagating out of the
screening entry point (`pd.to_datetime` raises outside any handler), not
via an explicit failure signal returned to the caller. -/
theorem C8_invalid_date_raises (parse : String → Option TS)
    (mod : SelectorModule) (env : Env) (args : Args) (s : String)
    (hdate : args.date = some s) (hs : s ≠ "") (hp : parse s = none)
    (h1 : env.dataDirExists = true)
    (h2 : computeCodes env args.tickers ≠ [])
    (h3 : load_data env (computeCodes env args.tickers) ≠ []) :
    run_select_stock parse mod env args = .raise "DateParseError" := by
  rw [run_eq_after_checks parse mod env args h1 h2 h3, hdate]
  unfold resolveTradeDate
  simp [hs, hp]

/-- C8 witness: a concrete invalid date string raises. -/
theorem C8_invalid_date_raises_witness :
    run_select_stock parse0 mod0
        ⟨true, [("AAA", [1, 2])],
          some (.jarr [.jobj [("class", .jstr "Good")]])⟩
        ⟨some "nonsense", "AAA"⟩ = .raise "DateParseError" :=
  C8_invalid_date_raises parse0 mod0
    ⟨true, [("AAA", [1, 2])], some (.jarr [.jobj [("class", .jstr "Good")]])⟩
    ⟨some "nonsense", "AAA"⟩ "nonsense" rfl (by decide) (by decide)
    rfl (by decide) (by decide)
